import Mathlib

/-!
Verification of the mixin-attribute facility in `mixin-attrs/mixin_attrs.py`.

The core is `AttributeHandler`: a descriptor holding a default value and a
side table (`self.__variable : dict[int, T]`) keyed by `id(obj)`.  Reads fall
back to the default; the first write for an owner registers a
`weakref.finalize(obj, cleanup)` hook whose `cleanup` closure deletes the
owner's entry.  Two factories (`mixin_property`, `optional_mixin_property`)
build handlers with a required (non-None) or optional default.

The embedding below follows the source line by line:
* Python `dict[int, T]` is an association list `List (Nat × V)` with
  `dictLookup` / `dictInsert` / `dictErase` / `dictContains` mirroring
  `d.get`, `d[k] = v`, `del d[k]`, `k in d`.
* A Python owner object is `PyObj`: an identity token `oid` (the value of
  `id(obj)`, unique among simultaneously-live objects) together with a
  `payload` standing for the object's value content (two distinct objects may
  be value-equal, i.e. share a payload, while having different `oid`s).
* `dict.get(k, default)` does not mutate the dict, so `__getitem__` and
  `__contains__` are embedded as pure functions of the handler state; reads
  cannot allocate entries by construction of the source code itself.
* The mutating operation `__setitem__`, the `weakref.finalize` registry and
  object lifetime are modelled by `SysState` and a small-step relation
  `Step`, with `Reachable` closing it over the initial state.
-/

namespace MixinAttrs

/-- A Python object as seen by the handler: its identity `oid` (= `id(obj)`)
and a `payload` standing for its value content.  Distinct simultaneously-live
objects have distinct `oid`s even when value-equal (equal payloads). -/
structure PyObj where
  oid : Nat
  payload : Nat
deriving DecidableEq, Repr

/-! ### Python `dict[int, T]` primitives -/

/-- `d.get(k)` — first (and, for dicts, only) binding of key `k`. -/
def dictLookup {V : Type} : List (Nat × V) → Nat → Option V
  | [], _ => none
  | (k', v) :: rest, k => if k' = k then some v else dictLookup rest k

/-- `d[k] = v` — replace the binding of `k` in place if present, else append. -/
def dictInsert {V : Type} : List (Nat × V) → Nat → V → List (Nat × V)
  | [], k, v => [(k, v)]
  | (k', v') :: rest, k, v =>
      if k' = k then (k, v) :: rest else (k', v') :: dictInsert rest k v

/-- `del d[k]` minus the `KeyError` check — removes the binding of `k`. -/
def dictErase {V : Type} : List (Nat × V) → Nat → List (Nat × V)
  | [], _ => []
  | (k', v') :: rest, k => if k' = k then rest else (k', v') :: dictErase rest k

/-- `k in d`. -/
def dictContains {V : Type} (d : List (Nat × V)) (k : Nat) : Bool :=
  (dictLookup d k).isSome

/-- `list(d.keys())`. -/
def dictKeys {V : Type} (d : List (Nat × V)) : List Nat :=
  d.map Prod.fst

/-- Number of bindings of key `k` present in `d` (1 for a real dict). -/
def countKey {V : Type} (d : List (Nat × V)) (k : Nat) : Nat :=
  List.count k (dictKeys d)

/-! ### `AttributeHandler` -/

/-- State of one `AttributeHandler` instance: `__name`, `__default_value`,
`__variable` from `AttributeHandler.__init__`. -/
structure AttributeHandler (V : Type) where
  name : Option String
  default_value : V
  variable_ : List (Nat × V)
deriving Repr

/-- `AttributeHandler.__init__(default_value)`: name unset, empty table. -/
def AttributeHandler.init {V : Type} (default_value : V) : AttributeHandler V :=
  ⟨none, default_value, []⟩

/-- `AttributeHandler._get_id(obj) = id(obj)`. -/
def getId (o : PyObj) : Nat := o.oid

/-- `AttributeHandler.__contains__(obj)`: `self._get_id(obj) in self.__variable`. -/
def dunderContains {V : Type} (h : AttributeHandler V) (o : PyObj) : Bool :=
  dictContains h.variable_ (getId o)

/-- `AttributeHandler.__getitem__(obj)`:
`self.__variable.get(self._get_id(obj), self.__default_value)`. -/
def dunderGetitem {V : Type} (h : AttributeHandler V) (o : PyObj) : V :=
  (dictLookup h.variable_ (getId o)).getD h.default_value

/-- The `cleanup` closure built by `_add_destructor_hooks(obj)`:
`del self.__variable[self._get_id(obj)]`.  Python's `del d[k]` raises
`KeyError` when `k` is absent, hence the `Except` result. -/
def cleanup {V : Type} (h : AttributeHandler V) (objId : Nat) :
    Except Unit (AttributeHandler V) :=
  if dictContains h.variable_ objId then
    .ok { h with variable_ := dictErase h.variable_ objId }
  else
    .error ()

/-- `AttributeHandler.__set_name__(owner, name)`. -/
def dunderSetName {V : Type} (h : AttributeHandler V) (n : String) :
    AttributeHandler V :=
  { h with name := some n }

/-! ### System state: handler + `weakref.finalize` registry + live objects

`_add_destructor_hooks(obj)` calls `weakref.finalize(obj, cleanup)` where the
`cleanup` closure captures `obj` itself.  The finalize registry holds `cleanup`
strongly for as long as the finalizer is pending, and `cleanup` holds `obj`
strongly, so a registered finalizer pins its owner: `obj` stays reachable and
is never collected while its registration is pending.  `finalizers` records
the `id` of each object with a pending registration (one list entry per
`weakref.finalize` call, so multiplicity counts registrations). -/

structure SysState (V : Type) where
  handler : AttributeHandler V
  finalizers : List Nat
  live : List PyObj
deriving Repr

/-- `AttributeHandler._add_destructor_hooks(obj)`: register
`weakref.finalize(obj, cleanup)`. -/
def addDestructorHooks {V : Type} (s : SysState V) (o : PyObj) : SysState V :=
  { s with finalizers := getId o :: s.finalizers }

/-- `AttributeHandler.__setitem__(obj, value)`:
`if obj not in self: self._add_destructor_hooks(obj)` then
`self.__variable[self._get_id(obj)] = value`. -/
def dunderSetitem {V : Type} (s : SysState V) (o : PyObj) (v : V) : SysState V :=
  let s1 := if dunderContains s.handler o then s else addDestructorHooks s o
  { s1 with
    handler := { s1.handler with
      variable_ := dictInsert s1.handler.variable_ (getId o) v } }

/-- Initial state: a freshly constructed handler, empty finalize registry,
no live owners yet. -/
def initState {V : Type} (d : V) : SysState V :=
  ⟨AttributeHandler.init d, [], []⟩

/-- One step of the system: allocate a fresh owner (identity unique among
live objects), write through `__setitem__` to a live owner, or collect an
owner.  An owner is collectible only if no pending finalizer references it:
the `cleanup` closure passed to `weakref.finalize(obj, cleanup)` holds a
strong reference to `obj`, so `obj`'s id being in the registry blocks
collection.  Reads (`__getitem__` / `__contains__`) do not change the state
and so need no step. -/
inductive Step {V : Type} : SysState V → SysState V → Prop
  | alloc (s : SysState V) (o : PyObj)
      (hfresh : ∀ o' ∈ s.live, o'.oid ≠ o.oid) :
      Step s { s with live := o :: s.live }
  | setOp (s : SysState V) (o : PyObj) (v : V) (hlive : o ∈ s.live) :
      Step s (dunderSetitem s o v)
  | collect (s : SysState V) (o : PyObj) (hlive : o ∈ s.live)
      (hnoref : o.oid ∉ s.finalizers) :
      Step s { s with live := s.live.erase o }

/-- States reachable from a freshly built handler with default `d`. -/
inductive Reachable {V : Type} (d : V) : SysState V → Prop
  | init : Reachable d (initState d)
  | step {s s' : SysState V} : Reachable d s → Step s s' → Reachable d s'

/-! ### Descriptor protocol: `__get__` / `__set__`

`__get__(self, obj, obj_type)` simply returns `self[obj]`.  The `obj`
argument may be `None` (Python passes `None` when the attribute is read on
the class rather than an instance), so the argument type is `Option PyObj`
and the lookup key is `id(obj)` with `id(None)` a fixed token of the
runtime, modelled by `noneOid`. -/

/-- The identity token `id(None)` of the `None` singleton (a fixed address
chosen by the runtime; its concrete value is irrelevant). -/
def noneOid : Nat := 0

/-- `id(obj)` for a possibly-`None` argument. -/
def pyId : Option PyObj → Nat
  | none => noneOid
  | some o => getId o

/-- `AttributeHandler.__get__(obj, obj_type)`: `return self[obj]`, i.e.
`self.__variable.get(id(obj), self.__default_value)`; `obj_type` is unused. -/
def dunderGet {V : Type} (h : AttributeHandler V) (obj : Option PyObj)
    (_objType : Option Unit) : V :=
  (dictLookup h.variable_ (pyId obj)).getD h.default_value

/-- `AttributeHandler.__set__(obj, value)`: `self[obj] = value`. -/
def dunderSet {V : Type} (s : SysState V) (o : PyObj) (v : V) : SysState V :=
  dunderSetitem s o v

/-! ### Factories

Python values of the attribute type are modelled as `Option V`, with `none`
playing the role of Python's `None`; this is what lets the `is not None`
assert of `mixin_property` and the optional default of
`optional_mixin_property` be expressed. -/

/-- `MixinProperty.__init__(default_value)` state. -/
structure MixinProperty (V : Type) where
  default_value : Option V
deriving Repr

/-- `MixinProperty.__call__(to_be_decorated)`: ignores the decorated
placeholder and returns `AttributeHandler(self.__default_value)`. -/
def MixinProperty.call {V : Type} (p : MixinProperty V) (_toBeDecorated : Unit) :
    AttributeHandler (Option V) :=
  AttributeHandler.init p.default_value

/-- `OptionalMixinProperty.__init__(default_value=None)` state. -/
structure OptionalMixinProperty (V : Type) where
  default_value : Option V
deriving Repr

/-- `OptionalMixinProperty.__call__(to_be_decorated)`: ignores the decorated
placeholder and returns `AttributeHandler(self.__default_value)`. -/
def OptionalMixinProperty.call {V : Type} (p : OptionalMixinProperty V)
    (_toBeDecorated : Unit) : AttributeHandler (Option V) :=
  AttributeHandler.init p.default_value

/-- `mixin_property(default_value)`: `assert default_value is not None`
(an `AssertionError` at declaration time when it is `None`), then
`return MixinProperty(default_value)`. -/
def mixin_property {V : Type} (default_value : Option V) :
    Except Unit (MixinProperty V) :=
  match default_value with
  | none => .error ()
  | some v => .ok ⟨some v⟩

/-- `optional_mixin_property(default_value=None)`:
`return OptionalMixinProperty(default_value)` — no check. -/
def optional_mixin_property {V : Type} (default_value : Option V) :
    OptionalMixinProperty V :=
  ⟨default_value⟩

/-! ### The `TestMixin` class declarations

`TestMixin` declares `_y = optional_mixin_property(1)(...)` and
`_z = mixin_property(3)(...)`; each declaration yields its own handler with
its own table.  A `TestMixin`-wide state is a pair of independent per-handler
system states. -/

/-- The handler produced for `_y` by `@optional_mixin_property(1)`. -/
def yAttr : AttributeHandler (Option Nat) :=
  (optional_mixin_property (some 1)).call ()

/-- The factory produced for `_z` by `mixin_property(3)` (the assert passes). -/
def zProp : Except Unit (MixinProperty Nat) := mixin_property (some 3)

/-- The handler produced for `_z`: `mixin_property(3)` succeeds with
`MixinProperty(3)`, whose `__call__` builds the handler. -/
def zAttr : AttributeHandler (Option Nat) :=
  (MixinProperty.mk (some 3)).call ()

/-- The per-class state of the two attributes `_y` and `_z`: one independent
system state per handler. -/
structure TestMixinState where
  yState : SysState (Option Nat)
  zState : SysState (Option Nat)
deriving Repr

/-- Both attributes freshly declared, no owner written yet. -/
def TestMixinState.start : TestMixinState :=
  ⟨⟨yAttr, [], []⟩, ⟨zAttr, [], []⟩⟩

/-- Write `o._y = v`: delegates to `_y`'s handler `__set__`. -/
def TestMixinState.setY (s : TestMixinState) (o : PyObj) (v : Option Nat) :
    TestMixinState :=
  { s with yState := dunderSet s.yState o v }

/-- Write `o._z = v`: delegates to `_z`'s handler `__set__`. -/
def TestMixinState.setZ (s : TestMixinState) (o : PyObj) (v : Option Nat) :
    TestMixinState :=
  { s with zState := dunderSet s.zState o v }

/-- Read `o._y`: delegates to `_y`'s handler `__get__`. -/
def TestMixinState.getY (s : TestMixinState) (o : PyObj) : Option Nat :=
  dunderGet s.yState.handler (some o) none

/-- Read `o._z`: delegates to `_z`'s handler `__get__`. -/
def TestMixinState.getZ (s : TestMixinState) (o : PyObj) : Option Nat :=
  dunderGet s.zState.handler (some o) none

/-! ### Concrete sample states

A few concrete owners and runs of the system, used to evaluate the theorems
below on closed inputs. -/

/-- A sample owner: identity 1, payload 7. -/
def owner1 : PyObj := ⟨1, 7⟩

/-- A second owner, distinct from `owner1` (identity 2) but value-equal to it
(same payload 7). -/
def owner2 : PyObj := ⟨2, 7⟩

/-- A third owner, identity 3. -/
def owner3 : PyObj := ⟨3, 0⟩

/-- Fresh `Nat`-valued handler system with default 0 after allocating
`owner1`. -/
def stateA : SysState Nat :=
  { initState 0 with live := owner1 :: (initState 0).live }

/-- `stateA` after the write `handler[owner1] = 7`. -/
def stateB : SysState Nat := dunderSetitem stateA owner1 7

/-! ### Dictionary lemmas -/

theorem dictLookup_insert_self {V : Type} (d : List (Nat × V)) (k : Nat) (v : V) :
    dictLookup (dictInsert d k v) k = some v := by
  induction d with
  | nil => simp [dictInsert, dictLookup]
  | cons hd tl ih =>
    obtain ⟨k', v'⟩ := hd
    by_cases h : k' = k <;> simp [dictInsert, dictLookup, h, ih]

theorem dictLookup_insert_ne {V : Type} (d : List (Nat × V)) (k k' : Nat) (v : V)
    (hne : k' ≠ k) : dictLookup (dictInsert d k v) k' = dictLookup d k' := by
  induction d with
  | nil => simp [dictInsert, dictLookup, hne, Ne.symm hne]
  | cons hd tl ih =>
    obtain ⟨k'', v''⟩ := hd
    by_cases h : k'' = k <;>
      by_cases h' : k'' = k' <;>
      simp_all [dictInsert, dictLookup, hne, Ne.symm hne]

theorem dictKeys_nil {V : Type} : dictKeys ([] : List (Nat × V)) = [] := rfl

theorem dictKeys_cons {V : Type} (k : Nat) (v : V) (tl : List (Nat × V)) :
    dictKeys ((k, v) :: tl) = k :: dictKeys tl := rfl

theorem mem_dictKeys_iff {V : Type} (d : List (Nat × V)) (k : Nat) :
    k ∈ dictKeys d ↔ (dictLookup d k).isSome := by
  induction d with
  | nil => simp [dictKeys_nil, dictLookup]
  | cons hd tl ih =>
    obtain ⟨k', v'⟩ := hd
    rw [dictKeys_cons, dictLookup]
    by_cases h : k' = k
    · simp [h]
    · simp [h, Ne.symm h, ih]

theorem dictKeys_insert_mem {V : Type} (d : List (Nat × V)) (k : Nat) (v : V)
    (hk : k ∈ dictKeys d) : dictKeys (dictInsert d k v) = dictKeys d := by
  induction d with
  | nil => simp [dictKeys_nil] at hk
  | cons hd tl ih =>
    obtain ⟨k', v'⟩ := hd
    by_cases h : k' = k
    · rw [dictInsert, if_pos h, dictKeys_cons, dictKeys_cons, h]
    · rw [dictKeys_cons, List.mem_cons] at hk
      rcases hk with hk | hk
      · exact absurd hk.symm h
      · rw [dictInsert, if_neg h, dictKeys_cons, dictKeys_cons, ih hk]

theorem dictKeys_insert_not_mem {V : Type} (d : List (Nat × V)) (k : Nat) (v : V)
    (hk : k ∉ dictKeys d) : dictKeys (dictInsert d k v) = dictKeys d ++ [k] := by
  induction d with
  | nil => simp [dictInsert, dictKeys_cons, dictKeys_nil]
  | cons hd tl ih =>
    obtain ⟨k', v'⟩ := hd
    rw [dictKeys_cons, List.mem_cons] at hk
    push_neg at hk
    rw [dictInsert, if_neg (fun h => hk.1 h.symm), dictKeys_cons, dictKeys_cons,
      ih hk.2, List.cons_append]

theorem nodup_dictKeys_insert {V : Type} {d : List (Nat × V)} (k : Nat) (v : V)
    (h : (dictKeys d).Nodup) : (dictKeys (dictInsert d k v)).Nodup := by
  by_cases hk : k ∈ dictKeys d
  · rw [dictKeys_insert_mem d k v hk]; exact h
  · rw [dictKeys_insert_not_mem d k v hk]
    simp [List.nodup_append, h, hk]

theorem countKey_eq_one {V : Type} {d : List (Nat × V)} {k : Nat}
    (hnd : (dictKeys d).Nodup) (hm : k ∈ dictKeys d) : countKey d k = 1 :=
  List.count_eq_one_of_mem hnd hm

/-! ### Projections of `__setitem__` -/

theorem dunderSetitem_variable {V : Type} (s : SysState V) (o : PyObj) (v : V) :
    (dunderSetitem s o v).handler.variable_ =
      dictInsert s.handler.variable_ (getId o) v := by
  by_cases h : dunderContains s.handler o <;>
    simp [dunderSetitem, addDestructorHooks, h]

theorem dunderSetitem_default {V : Type} (s : SysState V) (o : PyObj) (v : V) :
    (dunderSetitem s o v).handler.default_value = s.handler.default_value := by
  by_cases h : dunderContains s.handler o <;>
    simp [dunderSetitem, addDestructorHooks, h]

theorem dunderSetitem_finalizers {V : Type} (s : SysState V) (o : PyObj) (v : V) :
    (dunderSetitem s o v).finalizers =
      if dunderContains s.handler o then s.finalizers
      else getId o :: s.finalizers := by
  by_cases h : dunderContains s.handler o <;>
    simp [dunderSetitem, addDestructorHooks, h]

theorem dunderSetitem_live {V : Type} (s : SysState V) (o : PyObj) (v : V) :
    (dunderSetitem s o v).live = s.live := by
  by_cases h : dunderContains s.handler o <;>
    simp [dunderSetitem, addDestructorHooks, h]

/-! ### The reachable-state invariant -/

/-- Invariant of every reachable state: the table's keys are distinct (it is
a dict); the finalize registry holds exactly one registration for each stored
key and none for any other id; and every stored key is the identity of a
currently live object. -/
def Inv {V : Type} (s : SysState V) : Prop :=
  (dictKeys s.handler.variable_).Nodup ∧
  (∀ k : Nat, List.count k s.finalizers =
      if k ∈ dictKeys s.handler.variable_ then 1 else 0) ∧
  (∀ k ∈ dictKeys s.handler.variable_, ∃ o ∈ s.live, o.oid = k)

theorem inv_init {V : Type} (d : V) : Inv (initState d) := by
  refine ⟨?_, ?_, ?_⟩ <;> simp [initState, AttributeHandler.init, dictKeys]

theorem inv_step {V : Type} {s s' : SysState V} (hs : Inv s) (hstep : Step s s') :
    Inv s' := by
  obtain ⟨hnd, hcnt, hlv⟩ := hs
  cases hstep with
  | alloc o hfresh =>
    refine ⟨hnd, hcnt, ?_⟩
    intro k hk
    obtain ⟨o', ho', hoid⟩ := hlv k hk
    exact ⟨o', by simp [ho'], hoid⟩
  | setOp o v hlive =>
    by_cases hc : dunderContains s.handler o
    · have hmem : getId o ∈ dictKeys s.handler.variable_ := by
        rw [mem_dictKeys_iff]
        simpa [dunderContains, dictContains] using hc
      refine ⟨?_, ?_, ?_⟩
      · rw [dunderSetitem_variable, dictKeys_insert_mem _ _ _ hmem]; exact hnd
      · intro k
        rw [dunderSetitem_finalizers, dunderSetitem_variable,
          dictKeys_insert_mem _ _ _ hmem, if_pos hc]
        exact hcnt k
      · intro k hk
        rw [dunderSetitem_variable, dictKeys_insert_mem _ _ _ hmem] at hk
        obtain ⟨o', ho', hoid⟩ := hlv k hk
        exact ⟨o', by rw [dunderSetitem_live]; exact ho', hoid⟩
    · have hmem : getId o ∉ dictKeys s.handler.variable_ := by
        rw [mem_dictKeys_iff]
        simpa [dunderContains, dictContains] using hc
      refine ⟨?_, ?_, ?_⟩
      · rw [dunderSetitem_variable]; exact nodup_dictKeys_insert _ _ hnd
      · intro k
        rw [dunderSetitem_finalizers, dunderSetitem_variable,
          dictKeys_insert_not_mem _ _ _ hmem, if_neg hc]
        by_cases hko : k = getId o
        · subst hko
          have h0 : List.count (getId o) s.finalizers = 0 := by
            rw [hcnt (getId o), if_neg hmem]
          simp [List.count_cons, List.mem_append, h0]
        · simp [List.count_cons, List.mem_append, hcnt k, hko]
      · intro k hk
        rw [dunderSetitem_variable, dictKeys_insert_not_mem _ _ _ hmem] at hk
        rw [dunderSetitem_live]
        rcases List.mem_append.mp hk with hk | hk
        · exact hlv k hk
        · simp at hk
          subst hk
          exact ⟨o, hlive, rfl⟩
  | collect o hlive hnoref =>
    refine ⟨hnd, hcnt, ?_⟩
    intro k hk
    obtain ⟨o', ho', hoid⟩ := hlv k hk
    have hkfin : k ∈ s.finalizers := by
      have := hcnt k
      rw [if_pos hk] at this
      exact List.count_pos_iff.mp (by omega)
    have hne : o' ≠ o := by
      rintro rfl
      exact hnoref (hoid ▸ hkfin)
    exact ⟨o', (List.mem_erase_of_ne hne).mpr ho', hoid⟩

theorem inv_reachable {V : Type} {d : V} {s : SysState V}
    (h : Reachable d s) : Inv s := by
  induction h with
  | init => exact inv_init d
  | step _ hstep ih => exact inv_step ih hstep

/-! ### Claims -/

/-- C1: `get(owner)` (`__getitem__`) returns the stored override when
`contains(owner)` (`__contains__`) is true, and `default_value` otherwise.
Both are embedded as total pure functions of the handler state — faithful to
the source, whose read path is `dict.get(key, default)`, which never raises
and never mutates — so reading a never-written owner yields the default,
allocates nothing, and leaves `contains(owner)` false. -/
theorem getitem_contract {V : Type} (h : AttributeHandler V) (o : PyObj) :
    (dunderContains h o = true →
      dictLookup h.variable_ (getId o) = some (dunderGetitem h o)) ∧
    (dunderContains h o = false → dunderGetitem h o = h.default_value) := by
  constructor
  · intro hc
    unfold dunderContains dictContains at hc
    obtain ⟨v, hv⟩ := Option.isSome_iff_exists.mp hc
    simp [dunderGetitem, hv]
  · intro hc
    unfold dunderContains dictContains at hc
    have hl : dictLookup h.variable_ (getId o) = none := by
      cases hl : dictLookup h.variable_ (getId o) with
      | none => rfl
      | some v => rw [hl] at hc; simp at hc
    simp [dunderGetitem, hl]

/-- Witness for C1: a never-written owner reads the default 5. -/
theorem getitem_contract_witness :
    dunderGetitem (AttributeHandler.init (5 : Nat)) owner1 = 5 :=
  (getitem_contract (AttributeHandler.init (5 : Nat)) owner1).2 rfl

/-- C2: immediately after `set(o, v)`, `get(o) = v` and `contains(o)` holds;
after `set(o, v1); set(o, v2)` the last write wins (`get(o) = v2`), and in
any reachable state the table then holds exactly one entry for `o`. -/
theorem setitem_get_contract {V : Type} (d : V) (s : SysState V) (o : PyObj)
    (v v1 v2 : V) (hr : Reachable d s) :
    dunderGetitem (dunderSetitem s o v).handler o = v ∧
    dunderContains (dunderSetitem s o v).handler o = true ∧
    dunderGetitem (dunderSetitem (dunderSetitem s o v1) o v2).handler o = v2 ∧
    countKey (dunderSetitem (dunderSetitem s o v1) o v2).handler.variable_
      (getId o) = 1 := by
  obtain ⟨hnd, -, -⟩ := inv_reachable hr
  refine ⟨?_, ?_, ?_, ?_⟩
  · simp [dunderGetitem, dunderSetitem_variable, dictLookup_insert_self]
  · simp [dunderContains, dictContains, dunderSetitem_variable,
      dictLookup_insert_self]
  · simp [dunderGetitem, dunderSetitem_variable, dictLookup_insert_self]
  · have hnd1 : (dictKeys (dictInsert s.handler.variable_ (getId o) v1)).Nodup :=
      nodup_dictKeys_insert _ _ hnd
    have hnd2 : (dictKeys (dictInsert
        (dictInsert s.handler.variable_ (getId o) v1) (getId o) v2)).Nodup :=
      nodup_dictKeys_insert _ _ hnd1
    have hmem : getId o ∈ dictKeys (dictInsert
        (dictInsert s.handler.variable_ (getId o) v1) (getId o) v2) := by
      rw [mem_dictKeys_iff, dictLookup_insert_self]; rfl
    rw [dunderSetitem_variable, dunderSetitem_variable]
    exact countKey_eq_one hnd2 hmem

/-- Witness for C2: writing 7 to `owner1` in a reachable state reads back 7. -/
theorem setitem_get_contract_witness :
    dunderGetitem (dunderSetitem (initState (0 : Nat)) owner1 7).handler
      owner1 = 7 :=
  (setitem_get_contract 0 (initState 0) owner1 7 7 7 Reachable.init).1

/-- C5: isolation — for owners with distinct identities (even value-equal
ones), `set(o1, v)` changes neither `get(o2)` nor `contains(o2)`. -/
theorem setitem_isolation {V : Type} (s : SysState V) (o1 o2 : PyObj) (v : V)
    (hne : getId o1 ≠ getId o2) :
    dunderGetitem (dunderSetitem s o1 v).handler o2 =
      dunderGetitem s.handler o2 ∧
    dunderContains (dunderSetitem s o1 v).handler o2 =
      dunderContains s.handler o2 := by
  constructor
  · simp [dunderGetitem, dunderSetitem_variable, dunderSetitem_default,
      dictLookup_insert_ne _ _ _ _ (Ne.symm hne)]
  · simp [dunderContains, dictContains, dunderSetitem_variable,
      dictLookup_insert_ne _ _ _ _ (Ne.symm hne)]

/-- Witness for C5: `owner1` and `owner2` are value-equal (payload 7) but
have distinct identities; writing 9 to `owner1` leaves `owner2` at the
default 0. -/
theorem setitem_isolation_witness :
    dunderGetitem (dunderSetitem (initState (0 : Nat)) owner1 9).handler
      owner2 = 0 := by
  have h := (setitem_isolation (initState (0 : Nat)) owner1 owner2 9
    (by decide)).1
  rw [h]; rfl

/-- C6: `__setitem__` registers the destruction hook exactly when the owner
has no entry yet — the registration precedes the store in the source, and a
write to an owner that is already present registers nothing — so in every
reachable state at most one registration per owner exists after any write. -/
theorem setitem_hook_once {V : Type} (d : V) (s : SysState V) (o : PyObj)
    (v : V) (hr : Reachable d s) :
    (dunderContains s.handler o = false →
      (dunderSetitem s o v).finalizers = getId o :: s.finalizers) ∧
    (dunderContains s.handler o = true →
      (dunderSetitem s o v).finalizers = s.finalizers) ∧
    List.count (getId o) (dunderSetitem s o v).finalizers ≤ 1 := by
  obtain ⟨-, hcnt, -⟩ := inv_reachable hr
  refine ⟨?_, ?_, ?_⟩
  · intro hc
    rw [dunderSetitem_finalizers, if_neg (by simp [hc])]
  · intro hc
    rw [dunderSetitem_finalizers, if_pos hc]
  · rw [dunderSetitem_finalizers]
    by_cases hc : dunderContains s.handler o
    · rw [if_pos hc, hcnt (getId o)]
      split <;> omega
    · rw [if_neg hc]
      have hmem : getId o ∉ dictKeys s.handler.variable_ := by
        rw [mem_dictKeys_iff]
        simpa [dunderContains, dictContains] using hc
      have h0 := hcnt (getId o)
      rw [if_neg hmem] at h0
      simp [List.count_cons, h0]

/-- Witness for C6: the first write for `owner1` registers exactly its hook. -/
theorem setitem_hook_once_witness :
    (dunderSetitem (initState (0 : Nat)) owner1 7).finalizers = [1] :=
  (setitem_hook_once 0 (initState 0) owner1 7 Reachable.init).1 rfl

/-- C3 (against the claimed lifecycle): in every reachable state a stored
owner is pinned — the `cleanup` closure handed to `weakref.finalize(obj,
cleanup)` holds a strong reference to `obj`, recorded here as the owner's id
sitting in the finalize registry — so no step can collect it: it survives
every step, its entry is never removed, and the claimed
"entry removed when the owner is destroyed" scenario can never occur. -/
theorem stored_owner_never_collected {V : Type} {d : V} {s s' : SysState V}
    (o : PyObj) (hr : Reachable d s) (ho : o ∈ s.live)
    (hk : getId o ∈ dictKeys s.handler.variable_) (hstep : Step s s') :
    getId o ∈ s.finalizers ∧ o ∈ s'.live := by
  obtain ⟨-, hcnt, -⟩ := inv_reachable hr
  have hfin : getId o ∈ s.finalizers := by
    have hc := hcnt (getId o)
    rw [if_pos hk] at hc
    exact List.count_pos_iff.mp (by omega)
  refine ⟨hfin, ?_⟩
  cases hstep with
  | alloc o' hfresh => exact List.mem_cons_of_mem _ ho
  | setOp o' v hlive => rw [dunderSetitem_live]; exact ho
  | collect o' hlive hnoref =>
    have hne : o ≠ o' := by
      rintro rfl
      exact hnoref hfin
    exact (List.mem_erase_of_ne hne).mpr ho

/-- Witness for C3's theorem: after allocating `owner1` and writing 7 to it
(state `stateB`, reachable), `owner1` is pinned by its finalizer and survives
the next step (here: allocating `owner3`). -/
theorem stored_owner_never_collected_witness :
    getId owner1 ∈ stateB.finalizers ∧
    owner1 ∈ (SysState.mk stateB.handler stateB.finalizers
      (owner3 :: stateB.live)).live :=
  stored_owner_never_collected owner1
    (Reachable.step
      (Reachable.step Reachable.init (Step.alloc (initState 0) owner1
        (by decide)))
      (Step.setOp stateA owner1 7 (by decide)))
    (by decide) (by decide)
    (Step.alloc stateB owner3 (by decide))

/-- C4 counterexample: firing the cleanup callback for an owner with no
entry is not a silent no-op — `cleanup` performs a bare
`del self.__variable[...]`, which raises `KeyError` on a missing key. -/
theorem cleanup_missing_raises :
    cleanup (AttributeHandler.init (0 : Nat)) 5 = .error () := rfl

/-- C4 amended: when the cleanup callback fires for an owner with no storage
entry it raises `KeyError` (the deletion of a missing key fails, so the
table is left unchanged); it is not a silent no-op. -/
theorem cleanup_missing_contract {V : Type} (h : AttributeHandler V) (k : Nat)
    (hc : dictContains h.variable_ k = false) :
    cleanup h k = .error () := by
  unfold cleanup
  rw [if_neg (by simp [hc])]

/-- Witness for the amended C4: a fresh handler has no entry for id 9, and
firing the cleanup for it errors. -/
theorem cleanup_missing_contract_witness :
    cleanup (AttributeHandler.init (3 : Nat)) 9 = .error () :=
  cleanup_missing_contract (AttributeHandler.init 3) 9 rfl

/-- C7: `mixin_property(None)` fails at declaration time (the
`assert default_value is not None`), before any handler exists; any non-None
default is accepted and the factory's `__call__` produces a handler carrying
exactly that default. -/
theorem mixin_property_contract (V : Type) (v : V) :
    mixin_property (V := V) none = .error () ∧
    mixin_property (some v) = .ok ⟨some v⟩ ∧
    ((⟨some v⟩ : MixinProperty V).call ()).default_value = some v :=
  ⟨rfl, rfl, rfl⟩

/-- C8: `optional_mixin_property(d)` — with `d` possibly `None`/absent —
produces a handler whose default is `d`; every owner reads `d` until it is
written, and after `set(o, v)` that owner reads `v`. -/
theorem optional_mixin_property_contract (V : Type) (d : Option V) (o : PyObj)
    (v : Option V) :
    ((optional_mixin_property d).call ()).default_value = d ∧
    dunderGetitem ((optional_mixin_property d).call ()) o = d ∧
    dunderGetitem (dunderSetitem ⟨(optional_mixin_property d).call (), [], [o]⟩
      o v).handler o = v := by
  refine ⟨rfl, rfl, ?_⟩
  simp [dunderGetitem, dunderSetitem_variable, dictLookup_insert_self]

/-- C9: the two attributes `_y` (declared with optional default 1) and `_z`
(declared with required default 3) own independent handlers: a write to `_z`
leaves every read of `_y` unchanged and conversely, and their fresh defaults
are 1 and 3. -/
theorem testmixin_independence (s : TestMixinState) (o o' : PyObj)
    (v : Option Nat) :
    (s.setZ o v).getY o' = s.getY o' ∧
    (s.setY o v).getZ o' = s.getZ o' ∧
    TestMixinState.start.getY o = some 1 ∧
    TestMixinState.start.getZ o = some 3 :=
  ⟨rfl, rfl, rfl, rfl⟩

/-- C10: class-level access — `__get__` called with a `None` instance —
performs the ordinary `__getitem__` lookup keyed on `id(None)` and, as long
as nothing was ever written under that key, returns `default_value`; it is a
total function (no exception) returning a `V`, not the descriptor itself. -/
theorem dunderGet_none_contract {V : Type} (h : AttributeHandler V)
    (hn : dictContains h.variable_ noneOid = false) :
    dunderGet h none none = h.default_value := by
  have hl : dictLookup h.variable_ noneOid = none := by
    unfold dictContains at hn
    cases hl : dictLookup h.variable_ noneOid with
    | none => rfl
    | some v => rw [hl] at hn; simp at hn
  simp [dunderGet, pyId, hl]

/-- Witness for C10: class-level read on a fresh handler yields the
default 5. -/
theorem dunderGet_none_contract_witness :
    dunderGet (AttributeHandler.init (5 : Nat)) none none = 5 :=
  dunderGet_none_contract (AttributeHandler.init 5) rfl

end MixinAttrs
